import Mathlib

/-!
Shallow embedding of `src/main.rs` of the screensplitter repository: CLI
argument parsing, the off-screen window creation sequence, the fragment-shader
channel swizzle, and the frame-pacing event loop.  Side effects of the program
(capturer creation, window creation, X property changes, texture uploads,
draws) are modelled as an explicit trace of `Effect` values; monotonic clock
instants and durations are Nat nanoseconds.
-/

namespace ScreenSplitter

/-- The `Settings` struct of main.rs (`window_title`, `target_fps: u32`,
`offscreen: bool`); `target_fps` is a `u32`, carried here as a `Nat`. -/
structure Settings where
  window_title : String
  target_fps : Nat
  offscreen : Bool
deriving DecidableEq

/-- Value of an ASCII decimal digit, `none` for any other character.  Models
the per-character step of Rust's integer `from_str`. -/
def digitVal (c : Char) : Option Nat :=
  if c.isDigit then some (c.toNat - 48) else none

/-- Accumulate decimal digits left to right; fails on the first non-digit. -/
def parseDigitsAux : List Char → Nat → Option Nat
  | [], acc => some acc
  | c :: cs, acc =>
    match digitVal c with
    | some d => parseDigitsAux cs (acc * 10 + d)
    | none => none

/-- Model of Rust's `str::parse::<uN>` for an unsigned `w`-bit integer: an
optional leading plus sign, then one or more ASCII digits, and the value must
fit in `w` bits (otherwise overflow is an error).  Anything else is an error
(`none`). -/
def parseUnsigned (w : Nat) (s : String) : Option Nat :=
  let cs := s.data
  let cs := if cs.head? = some '+' then cs.tail else cs
  if cs.isEmpty then none
  else
    match parseDigitsAux cs 0 with
    | some n => if n < 2 ^ w then some n else none
    | none => none

/-- Rust integer division `a / b`, which panics when `b = 0`; the panic is
modelled as `none`. -/
def checkedDiv (a b : Nat) : Option Nat :=
  if b = 0 then none else some (a / b)

/-- Width and height in pixels, as returned by `capturer.get_geometry()` and by
`captured_frame.get_dimensions()`. -/
structure Frame where
  width : Nat
  height : Nat
deriving DecidableEq

/-- One observable side effect of the program, in program order. -/
inductive Effect where
  /-- `eprintln!` of a diagnostic line to stderr. -/
  | eprintln (msg : String)
  /-- A Rust panic (e.g. division by zero, a failed `expect`). -/
  | panicked (msg : String)
  /-- `Capturer::new(CaptureSource::Monitor(monitor))`. -/
  | createCapturer (monitor : Nat)
  /-- `glium::Display::new` on a window built with the given title, inner
  size and override-redirect flag. -/
  | createWindow (title : String) (width height : Int) (override_redirect : Bool)
  /-- `window.set_outer_position(PhysicalPosition::new(x, y))`. -/
  | setOuterPosition (x y : Int)
  /-- `xlib.change_property(window, prop_atom, type_atom, Replace, payload)`,
  atoms identified by their names. -/
  | changeProp (propAtom typeAtom : String) (payload : List Nat)
  /-- `.flush()` of the X connection. -/
  | flushConn
  /-- `capturer.capture_frame()`. -/
  | captureFrame
  /-- `SrgbTexture2d::new` from raw data of the given dimensions. -/
  | createTexture (width height : Nat)
  /-- `target.draw(&vb, &ib, &program, &uniforms, ..)`. -/
  | drawCall
  /-- `target.finish()` (buffer swap / present). -/
  | finishSwap
deriving DecidableEq

/-- Effect trace of `create_offscreen_window` (main.rs lines 230-277): build
the window with the override-redirect flag equal to `config.offscreen`; move it
to `(width * -1, height * -1)` only when `config.offscreen` holds; then
unconditionally set the WM_STATE property (type WM_STATE, payload `[1, 0]`)
and flush. -/
def create_offscreen_window (config : Settings) (width height : Int) : List Effect :=
  [Effect.createWindow config.window_title width height config.offscreen]
    ++ (if config.offscreen then
          [Effect.setOuterPosition (width * -1) (height * -1)]
        else [])
    ++ [Effect.changeProp "WM_STATE" "WM_STATE" [1, 0], Effect.flushConn]

/-- The property-change calls occurring in an effect trace. -/
def changeProps (es : List Effect) : List Effect :=
  es.filter fun e =>
    match e with
    | Effect.changeProp _ _ _ => true
    | _ => false

/-- The `(x, y)` arguments of the window-repositioning calls in a trace. -/
def repositions (es : List Effect) : List (Int × Int) :=
  es.filterMap fun e =>
    match e with
    | Effect.setOuterPosition x y => some (x, y)
    | _ => none

/-- The `(width, height)` arguments of the texture creations in a trace. -/
def textureSizes (es : List Effect) : List (Nat × Nat) :=
  es.filterMap fun e =>
    match e with
    | Effect.createTexture w h => some (w, h)
    | _ => none

/-- Whether a trace touches any capture/window/GPU/X resource (anything beyond
diagnostics and panics). -/
def touchesResources (es : List Effect) : Bool :=
  es.any fun e =>
    match e with
    | Effect.eprintln _ => false
    | Effect.panicked _ => false
    | _ => true

/-- The window-system events the handler matches on: `WindowEvent` payloads. -/
inductive WinEvent where
  | closeRequested
  | otherWindowEvent
deriving DecidableEq

/-- The glutin events matched in the `el.run` closure (main.rs lines 162-212):
`LoopDestroyed`, `NewEvents(_)`, `WindowEvent { event, .. }`, and the
catch-all. -/
inductive LoopEvent where
  | loopDestroyed
  | newEvents
  | windowEvent (we : WinEvent)
  | otherEvent
deriving DecidableEq

/-- glutin's `ControlFlow`: `Poll` (the initial value of `el.run`),
`WaitUntil(instant)` and `Exit`. -/
inductive CtrlFlow where
  | poll
  | waitUntil (t : Nat)
  | leave
deriving DecidableEq

/-- The clock readings of one handler invocation, in nanoseconds of the
monotonic clock: `checkTime` is `Instant::now()` in the `early_wakeup`
comparison (line 160); `workDur` is `start_time.elapsed()` (line 194), the
measured duration of the capture/convert/draw work; `afterTime` is the
`Instant::now()` used to compute `next_iteration` (lines 197/199).  The
latter two are only meaningful if the tick branch runs. -/
structure TickTiming where
  checkTime : Nat
  workDur : Nat
  afterTime : Nat
deriving DecidableEq

/-- One delivered event with its clock readings and the frame that
`capture_frame` would return were a tick to run. -/
structure EventInput where
  event : LoopEvent
  timing : TickTiming
  frame : Frame
deriving DecidableEq

/-- The state carried across handler invocations: the `next_iteration` mutable
capture (line 158) and the `control_flow` out-parameter, which glutin
persists between invocations. -/
structure LoopState where
  next_iteration : Nat
  control_flow : CtrlFlow
deriving DecidableEq

/-- The `next_iteration` computation of the tick branch (main.rs lines
194-200): if `target_duration >= duration`, wake at `now + (target_duration -
duration)`; otherwise wake at `now` (immediately). -/
def tickNext (target : Nat) (tm : TickTiming) : Nat :=
  if target ≥ tm.workDur then tm.afterTime + (target - tm.workDur)
  else tm.afterTime

/-- Effects of one rendering tick (main.rs lines 165-191): capture the frame,
create a texture of the captured frame's own dimensions
(`captured_frame.get_dimensions()`), draw, and swap. -/
def tickEffects (f : Frame) : List Effect :=
  [Effect.captureFrame, Effect.createTexture f.width f.height,
   Effect.drawCall, Effect.finishSwap]

/-- One invocation of the `el.run` closure (main.rs lines 159-213): computes
`early_wakeup = next_iteration > Instant::now()`, then matches the event.
`NewEvents` with `early_wakeup` false performs a tick and schedules
`WaitUntil(next_iteration)` for the newly computed `next_iteration`;
`NewEvents` with `early_wakeup` true only re-arms `WaitUntil` for the
unchanged `next_iteration`; `WindowEvent::CloseRequested` sets
`ControlFlow::Exit`; `LoopDestroyed` and all other events change nothing.
Returns the new state and the effects of this invocation. -/
def stepLoop (target : Nat) (s : LoopState) (i : EventInput) : LoopState × List Effect :=
  match i.event with
  | LoopEvent.loopDestroyed => (s, [])
  | LoopEvent.newEvents =>
    if s.next_iteration > i.timing.checkTime then
      ({ s with control_flow := CtrlFlow.waitUntil s.next_iteration }, [])
    else
      let n := tickNext target i.timing
      ({ next_iteration := n, control_flow := CtrlFlow.waitUntil n }, tickEffects i.frame)
  | LoopEvent.windowEvent WinEvent.closeRequested =>
    ({ s with control_flow := CtrlFlow.leave }, [])
  | LoopEvent.windowEvent WinEvent.otherWindowEvent => (s, [])
  | LoopEvent.otherEvent => (s, [])

/-- Run the event loop over a list of delivered events.  Per glutin's
contract, once `control_flow` is `Exit` the loop stops invoking the handler
(its only remaining event, `LoopDestroyed`, returns immediately in the code),
so dispatch stops there. -/
def runLoop (target : Nat) : LoopState → List EventInput → LoopState × List Effect
  | s, [] => (s, [])
  | s, i :: is =>
    if s.control_flow = CtrlFlow.leave then (s, [])
    else
      let p := stepLoop target s i
      let q := runLoop target p.1 is
      (q.1, p.2 ++ q.2)

/-- Effect trace of `display_capture_window` (main.rs lines 86-214): create
the capturer, read the geometry, compute `target_duration = Duration::new(0,
1_000_000_000u32 / config.target_fps)` — a Rust division that panics when
`target_fps = 0` — then create the (possibly off-screen) window and run the
event loop.  `startTime` is the `Instant::now()` initialising
`next_iteration`; `inputs` are the events the loop will receive. -/
def display_capture_window (config : Settings) (monitor : Nat) (geo : Frame)
    (startTime : Nat) (inputs : List EventInput) : List Effect :=
  Effect.createCapturer monitor ::
    match checkedDiv 1000000000 config.target_fps with
    | none => [Effect.panicked "attempt to divide by zero"]
    | some targetNs =>
      create_offscreen_window config (Int.ofNat geo.width) (Int.ofNat geo.height)
        ++ (runLoop targetNs ⟨startTime, CtrlFlow.poll⟩ inputs).2

/-- The command-line arguments after clap has applied defaults: the
`monitor-id` positional (default "1"), the `--fps` value (default "30"), and
presence of the `--onscreen` flag. -/
structure CliArgs where
  monitor_id : String
  fps : String
  onscreen : Bool
deriving DecidableEq

/-- Effect trace of `main` (main.rs lines 28-83): parse the monitor id as
`usize` (64-bit) and the fps as `u32`; on a parse error print the one-line
diagnostic and return; otherwise build `Settings` with `offscreen =
!onscreen` and call `display_capture_window`. -/
def mainRun (a : CliArgs) (geo : Frame) (startTime : Nat)
    (inputs : List EventInput) : List Effect :=
  match parseUnsigned 64 a.monitor_id with
  | none => [Effect.eprintln "Monitor ID must be an integer"]
  | some monitor_id =>
    match parseUnsigned 32 a.fps with
    | none => [Effect.eprintln "Target frames per second must be integer"]
    | some target_fps =>
      display_capture_window
        ⟨"Monitor " ++ toString monitor_id, target_fps, !a.onscreen⟩
        monitor_id geo startTime inputs

/-- An RGBA color as handled by the fragment shader; GLSL components are
reals in [0,1], carried here as rationals. -/
structure Color4 where
  r : ℚ
  g : ℚ
  b : ℚ
  a : ℚ
deriving DecidableEq

/-- The fragment shader's output (main.rs line 151):
`gl_FragColor = vec4(textureColor.b, textureColor.g, textureColor.r, 1)`. -/
def fragSwizzle (c : Color4) : Color4 :=
  ⟨c.b, c.g, c.r, 1⟩

/-- Every size in the list equals `(w, h)`. -/
def allSize (sizes : List (Nat × Nat)) (w h : Nat) : Prop :=
  ∀ p ∈ sizes, p = (w, h)

/-!  Helper lemmas shared by the claim theorems. -/

/-- The two branches of the tick's next-wakeup computation collapse to
truncated subtraction. -/
theorem tickNext_eq (target : Nat) (tm : TickTiming) :
    tickNext target tm = tm.afterTime + (target - tm.workDur) := by
  unfold tickNext; split <;> omega

/-- Texture sizes distribute over trace concatenation. -/
theorem textureSizes_append (xs ys : List Effect) :
    textureSizes (xs ++ ys) = textureSizes xs ++ textureSizes ys := by
  simp [textureSizes]

/-- Window creation performs no texture uploads. -/
theorem textureSizes_create_offscreen_window (c : Settings) (w h : Int) :
    textureSizes (create_offscreen_window c w h) = [] := by
  cases hc : c.offscreen <;>
    simp [create_offscreen_window, textureSizes, hc]

/-- Every texture created by the event loop has the dimensions of the frame
that tick captured; if all delivered frames have the startup geometry, so do
all textures. -/
theorem runLoop_allSize (target : Nat) (geo : Frame) :
    ∀ (inputs : List EventInput) (s : LoopState),
      (∀ i ∈ inputs, i.frame = geo) →
      allSize (textureSizes (runLoop target s inputs).2) geo.width geo.height := by
  intro inputs
  induction inputs with
  | nil => intro s _; simp [runLoop, textureSizes, allSize]
  | cons i is ih =>
    intro s hf
    by_cases hstop : s.control_flow = CtrlFlow.leave
    · simp [runLoop, hstop, textureSizes, allSize]
    · have hi : i.frame = geo := hf i (List.mem_cons_self i is)
      have hrest : ∀ j ∈ is, j.frame = geo := fun j hj => hf j (List.mem_cons_of_mem i hj)
      have htail := ih (stepLoop target s i).1 hrest
      intro p hp
      simp only [runLoop, if_neg hstop] at hp
      rw [textureSizes_append] at hp
      rcases List.mem_append.mp hp with hp | hp
      · rcases hev : i.event with _ | _ | we | _ <;>
          simp only [stepLoop, hev] at hp
        · simp [textureSizes] at hp
        · split at hp
          · simp [textureSizes] at hp
          · simp [tickEffects, textureSizes] at hp
            rw [hp, hi]
        · cases we <;> simp [stepLoop, textureSizes] at hp
        · simp [textureSizes] at hp
      · exact htail p hp

/-!  Claim theorems. -/

/-- Claim C1, counterexample: the spec says that with `offscreen = false` no
property-change call occurs at all, but `create_offscreen_window` makes the
WM_STATE property-change call unconditionally — the call sits outside the
`if config.offscreen` block (main.rs lines 258-273) — so the trace for an
on-screen session still contains exactly the `[1, 0]` WM_STATE change. -/
theorem C1_counterexample :
    changeProps (create_offscreen_window ⟨"Monitor 1", 30, false⟩ 800 600) ≠ []
    ∧ changeProps (create_offscreen_window ⟨"Monitor 1", 30, false⟩ 800 600)
        = [Effect.changeProp "WM_STATE" "WM_STATE" [1, 0]] :=
  ⟨by decide, by decide⟩

/-- Claim C1, amended: for every configuration — `offscreen` true or false —
the window-manager-state property-change call is made exactly once per
session, on the created window, with the WM_STATE atom as both property and
value type and the two-element payload `[1, 0]`; only the off-screen
repositioning is conditional on `offscreen`. -/
theorem C1_wm_state_always (t : String) (f : Nat) (off : Bool) (w h : Int) :
    changeProps (create_offscreen_window ⟨t, f, off⟩ w h)
      = [Effect.changeProp "WM_STATE" "WM_STATE" [1, 0]] := by
  cases off <;> rfl

/-- Claim C2, code bug: the CLI validation only checks that the `--fps`
argument parses as a `u32`, so the string "0" is accepted with
`target_fps = 0`, violating the data model's positivity constraint; the
startup computation `1_000_000_000u32 / config.target_fps` (main.rs line 89)
then divides by zero and the process panics after the capturer is created,
instead of taking the configuration-error path the spec requires. -/
theorem C2_fps_zero_panics :
    parseUnsigned 32 "0" = some 0
    ∧ checkedDiv 1000000000 0 = none
    ∧ mainRun ⟨"1", "0", false⟩ ⟨800, 600⟩ 0 []
        = [Effect.createCapturer 1, Effect.panicked "attempt to divide by zero"] :=
  ⟨by decide, by decide, by decide⟩

/-- Claim C3: on a due wake (`next_iteration ≤ checkTime`), the tick runs and
sets `next_iteration = now + max(target_interval - d, 0)` where `now` is the
clock reading after the capture/convert/draw work and `d` its measured
duration, and the loop requests a wake at exactly that instant via
`ControlFlow::WaitUntil`; for `target_fps = 30` (target interval
`1_000_000_000 / 30` ns) and `d = 10 ms` the next wake is `now + 23333333` ns
≈ `now + 0.0233 s`. -/
theorem C3_next_wakeup (target : Nat) (s : LoopState) (i : EventInput)
    (hev : i.event = LoopEvent.newEvents)
    (hdue : s.next_iteration ≤ i.timing.checkTime) :
    (stepLoop target s i).1.next_iteration
        = i.timing.afterTime + ((target : Int) - (i.timing.workDur : Int)).toNat
    ∧ (stepLoop target s i).1.control_flow
        = CtrlFlow.waitUntil
            (i.timing.afterTime + ((target : Int) - (i.timing.workDur : Int)).toNat)
    ∧ tickNext (1000000000 / 30) ⟨i.timing.checkTime, 10000000, i.timing.afterTime⟩
        = i.timing.afterTime + 23333333 := by
  have hnot : ¬ s.next_iteration > i.timing.checkTime := Nat.not_lt.mpr hdue
  have htn : ((target : Int) - (i.timing.workDur : Int)).toNat
      = target - i.timing.workDur := by omega
  refine ⟨?_, ?_, ?_⟩
  · simp [stepLoop, hev, hnot, tickNext_eq, htn]
  · simp [stepLoop, hev, hnot, tickNext_eq, htn]
  · rw [tickNext_eq]; norm_num

/-- Witness for C3 at a concrete due wake. -/
theorem C3_next_wakeup_witness :
    (stepLoop 10 ⟨0, CtrlFlow.poll⟩
        ⟨LoopEvent.newEvents, ⟨5, 3, 9⟩, ⟨800, 600⟩⟩).1.next_iteration
        = 9 + ((10 : Int) - (3 : Int)).toNat
    ∧ (stepLoop 10 ⟨0, CtrlFlow.poll⟩
        ⟨LoopEvent.newEvents, ⟨5, 3, 9⟩, ⟨800, 600⟩⟩).1.control_flow
        = CtrlFlow.waitUntil (9 + ((10 : Int) - (3 : Int)).toNat)
    ∧ tickNext (1000000000 / 30) ⟨5, 10000000, 9⟩ = 9 + 23333333 :=
  C3_next_wakeup 10 ⟨0, CtrlFlow.poll⟩
    ⟨LoopEvent.newEvents, ⟨5, 3, 9⟩, ⟨800, 600⟩⟩ rfl (by decide)

/-- Claim C4: a wake strictly before `next_iteration` performs no tick — no
capture, no texture creation, no draw (the step's effect trace is empty) —
leaves `next_iteration` unchanged and re-arms `WaitUntil` for that same
instant; and a due wake that does tick schedules the new wake no earlier than
the tick's start time plus the target interval, so ticks can never occur at a
rate exceeding `target_fps`, however fast events arrive. -/
theorem C4_early_wakeup (target : Nat) (s : LoopState) (i : EventInput)
    (hev : i.event = LoopEvent.newEvents)
    (htime : i.timing.checkTime + i.timing.workDur ≤ i.timing.afterTime) :
    (i.timing.checkTime < s.next_iteration →
      (stepLoop target s i).2 = []
      ∧ (stepLoop target s i).1.next_iteration = s.next_iteration
      ∧ (stepLoop target s i).1.control_flow = CtrlFlow.waitUntil s.next_iteration)
    ∧ (s.next_iteration ≤ i.timing.checkTime →
      (stepLoop target s i).2 = tickEffects i.frame
      ∧ i.timing.checkTime + target ≤ (stepLoop target s i).1.next_iteration) := by
  constructor
  · intro hearly
    simp [stepLoop, hev, hearly]
  · intro hdue
    have hnot : ¬ s.next_iteration > i.timing.checkTime := Nat.not_lt.mpr hdue
    refine ⟨by simp [stepLoop, hev, hnot], ?_⟩
    simp only [stepLoop, hev, if_neg hnot]
    rw [tickNext_eq]
    omega

/-- Witness for C4 at a concrete early wake (scheduled wake 10, woken at 5). -/
theorem C4_early_wakeup_witness :
    (stepLoop 3 ⟨10, CtrlFlow.poll⟩ ⟨LoopEvent.newEvents, ⟨5, 2, 7⟩, ⟨800, 600⟩⟩).2 = []
    ∧ (stepLoop 3 ⟨10, CtrlFlow.poll⟩
        ⟨LoopEvent.newEvents, ⟨5, 2, 7⟩, ⟨800, 600⟩⟩).1.next_iteration = 10
    ∧ (stepLoop 3 ⟨10, CtrlFlow.poll⟩
        ⟨LoopEvent.newEvents, ⟨5, 2, 7⟩, ⟨800, 600⟩⟩).1.control_flow
        = CtrlFlow.waitUntil 10 :=
  (C4_early_wakeup 3 ⟨10, CtrlFlow.poll⟩
    ⟨LoopEvent.newEvents, ⟨5, 2, 7⟩, ⟨800, 600⟩⟩ rfl (by decide)).1 (by decide)

/-- Claim C5, counterexample: the fragment-stage swizzle emits
`vec4(b, g, r, 1)`, forcing the alpha component to 1, so applying it twice to
a pixel whose fourth component is not 1 does not restore the original byte
layout: the all-zero pixel maps to `(0, 0, 0, 1) ≠ (0, 0, 0, 0)`. -/
theorem C5_counterexample :
    fragSwizzle (fragSwizzle ⟨0, 0, 0, 0⟩) ≠ (⟨0, 0, 0, 0⟩ : Color4) := by decide

/-- Claim C5, amended: applying the fragment-stage swizzle twice restores the
red, green and blue components of every pixel and forces the alpha component
to 1; it is an involution exactly on the pixels whose alpha already equals
1. -/
theorem C5_swizzle_round_trip (c : Color4) :
    (fragSwizzle (fragSwizzle c)).r = c.r
    ∧ (fragSwizzle (fragSwizzle c)).g = c.g
    ∧ (fragSwizzle (fragSwizzle c)).b = c.b
    ∧ (fragSwizzle (fragSwizzle c)).a = 1
    ∧ (c.a = 1 → fragSwizzle (fragSwizzle c) = c) := by
  refine ⟨rfl, rfl, rfl, rfl, fun ha => ?_⟩
  cases c
  simp_all [fragSwizzle]

/-- Witness for C5 on a concrete alpha-1 pixel. -/
theorem C5_swizzle_round_trip_witness :
    fragSwizzle (fragSwizzle ⟨1/2, 1/3, 1/4, 1⟩) = (⟨1/2, 1/3, 1/4, 1⟩ : Color4) :=
  (C5_swizzle_round_trip ⟨1/2, 1/3, 1/4, 1⟩).2.2.2.2 (by decide)

/-- Claim C6: whenever the monitor-index argument or the fps argument fails
integer parsing, `main` produces exactly one diagnostic line on stderr and
nothing else: no capturer, no window, no texture, and in particular no
window-manager property-change call. -/
theorem C6_invalid_args (a : CliArgs) (geo : Frame) (st : Nat)
    (inputs : List EventInput)
    (hbad : parseUnsigned 64 a.monitor_id = none ∨ parseUnsigned 32 a.fps = none) :
    touchesResources (mainRun a geo st inputs) = false
    ∧ changeProps (mainRun a geo st inputs) = []
    ∧ (mainRun a geo st inputs = [Effect.eprintln "Monitor ID must be an integer"]
       ∨ mainRun a geo st inputs
         = [Effect.eprintln "Target frames per second must be integer"]) := by
  rcases hm : parseUnsigned 64 a.monitor_id with _ | m
  · refine ⟨?_, ?_, Or.inl ?_⟩ <;> simp [mainRun, hm, touchesResources, changeProps]
  · rcases hf : parseUnsigned 32 a.fps with _ | f
    · refine ⟨?_, ?_, Or.inr ?_⟩ <;> simp [mainRun, hm, hf, touchesResources, changeProps]
    · rcases hbad with h | h
      · rw [hm] at h; exact absurd h (by simp)
      · rw [hf] at h; exact absurd h (by simp)

/-- Witness for C6: the spec's scenario, monitor index "abc". -/
theorem C6_invalid_args_witness :
    touchesResources (mainRun ⟨"abc", "30", false⟩ ⟨800, 600⟩ 0 []) = false
    ∧ changeProps (mainRun ⟨"abc", "30", false⟩ ⟨800, 600⟩ 0 []) = []
    ∧ (mainRun ⟨"abc", "30", false⟩ ⟨800, 600⟩ 0 []
        = [Effect.eprintln "Monitor ID must be an integer"]
       ∨ mainRun ⟨"abc", "30", false⟩ ⟨800, 600⟩ 0 []
        = [Effect.eprintln "Target frames per second must be integer"]) :=
  C6_invalid_args ⟨"abc", "30", false⟩ ⟨800, 600⟩ 0 [] (Or.inl (by decide))

/-- Claim C7: under the documented invariant that the capture source's
resolution is fixed for the session — every captured frame carries the
startup geometry — every per-tick texture creation in the whole session
trace of `display_capture_window` uses exactly the startup geometry's
`(width, height)`, and no other size ever appears in a texture upload. -/
theorem C7_fixed_geometry (config : Settings) (monitor : Nat) (geo : Frame)
    (startTime : Nat) (inputs : List EventInput)
    (hframes : ∀ i ∈ inputs, i.frame = geo) :
    allSize (textureSizes (display_capture_window config monitor geo startTime inputs))
      geo.width geo.height := by
  unfold display_capture_window
  rcases hd : checkedDiv 1000000000 config.target_fps with _ | targetNs
  · simp [textureSizes, allSize]
  · have heq : textureSizes
        (Effect.createCapturer monitor ::
          (create_offscreen_window config (Int.ofNat geo.width) (Int.ofNat geo.height)
            ++ (runLoop targetNs ⟨startTime, CtrlFlow.poll⟩ inputs).2))
        = textureSizes (runLoop targetNs ⟨startTime, CtrlFlow.poll⟩ inputs).2 := by
      show textureSizes
          (create_offscreen_window config (Int.ofNat geo.width) (Int.ofNat geo.height)
            ++ (runLoop targetNs ⟨startTime, CtrlFlow.poll⟩ inputs).2) = _
      rw [textureSizes_append, textureSizes_create_offscreen_window, List.nil_append]
    rw [heq]
    exact runLoop_allSize targetNs geo inputs ⟨startTime, CtrlFlow.poll⟩ hframes

/-- Witness for C7: a one-tick session at geometry 800×600. -/
theorem C7_fixed_geometry_witness :
    allSize
      (textureSizes
        (display_capture_window ⟨"Monitor 1", 30, true⟩ 1 ⟨800, 600⟩ 0
          [⟨LoopEvent.newEvents, ⟨0, 1, 2⟩, ⟨800, 600⟩⟩]))
      800 600 :=
  C7_fixed_geometry ⟨"Monitor 1", 30, true⟩ 1 ⟨800, 600⟩ 0
    [⟨LoopEvent.newEvents, ⟨0, 1, 2⟩, ⟨800, 600⟩⟩] (by decide)

/-- Claim C8: with `offscreen = true` the session's window-creation trace is
exactly: create the window, immediately move its outer position to
`(-width, -height)`, then the WM_STATE property change and flush; with
`offscreen = false` no repositioning call occurs anywhere in the trace. -/
theorem C8_offscreen_position (t : String) (f : Nat) (w h : Int) :
    create_offscreen_window ⟨t, f, true⟩ w h
      = [Effect.createWindow t w h true, Effect.setOuterPosition (-w) (-h),
         Effect.changeProp "WM_STATE" "WM_STATE" [1, 0], Effect.flushConn]
    ∧ repositions (create_offscreen_window ⟨t, f, false⟩ w h) = [] := by
  constructor
  · simp [create_offscreen_window, mul_neg_one]
  · rfl

/-- Claim C9: from any non-terminal loop state, the handler moves
`control_flow` to `Exit` exactly when the event is a window-close request;
processing the close request itself performs no tick work (empty effect
trace); and once `control_flow` is `Exit` the loop dispatches nothing
further, so no capture, texture creation or draw happens after the close
event is processed. -/
theorem C9_close_terminal (target : Nat) (s s2 : LoopState) (i : EventInput)
    (is : List EventInput)
    (hne : s.control_flow ≠ CtrlFlow.leave)
    (hs2 : s2.control_flow = CtrlFlow.leave) :
    ((stepLoop target s i).1.control_flow = CtrlFlow.leave
      ↔ i.event = LoopEvent.windowEvent WinEvent.closeRequested)
    ∧ (stepLoop target s
        ⟨LoopEvent.windowEvent WinEvent.closeRequested, i.timing, i.frame⟩).2 = []
    ∧ (runLoop target s2 is).2 = [] := by
  refine ⟨?_, rfl, ?_⟩
  · constructor
    · intro hcf
      rcases hev : i.event with _ | _ | we | _
      · simp [stepLoop, hev] at hcf; exact absurd hcf hne
      · by_cases hearly : s.next_iteration > i.timing.checkTime <;>
          simp [stepLoop, hev, hearly] at hcf
      · cases we
        · rfl
        · simp [stepLoop, hev] at hcf; exact absurd hcf hne
      · simp [stepLoop, hev] at hcf; exact absurd hcf hne
    · intro hev
      simp [stepLoop, hev]
  · cases is <;> simp [runLoop, hs2]

/-- Witness for C9: a close request from the initial state, and a stopped
loop that ignores a pending due wake. -/
theorem C9_close_terminal_witness :
    ((stepLoop 3 ⟨0, CtrlFlow.poll⟩
        ⟨LoopEvent.windowEvent WinEvent.closeRequested, ⟨0, 0, 0⟩, ⟨800, 600⟩⟩).1.control_flow
        = CtrlFlow.leave
      ↔ (⟨LoopEvent.windowEvent WinEvent.closeRequested, ⟨0, 0, 0⟩,
          (⟨800, 600⟩ : Frame)⟩ : EventInput).event
          = LoopEvent.windowEvent WinEvent.closeRequested)
    ∧ (stepLoop 3 ⟨0, CtrlFlow.poll⟩
        ⟨LoopEvent.windowEvent WinEvent.closeRequested, ⟨0, 0, 0⟩, ⟨800, 600⟩⟩).2 = []
    ∧ (runLoop 3 ⟨7, CtrlFlow.leave⟩
        [⟨LoopEvent.newEvents, ⟨9, 0, 9⟩, ⟨800, 600⟩⟩]).2 = [] :=
  C9_close_terminal 3 ⟨0, CtrlFlow.poll⟩ ⟨7, CtrlFlow.leave⟩
    ⟨LoopEvent.windowEvent WinEvent.closeRequested, ⟨0, 0, 0⟩, ⟨800, 600⟩⟩
    [⟨LoopEvent.newEvents, ⟨9, 0, 9⟩, ⟨800, 600⟩⟩] (by decide) rfl

/-- Claim C10: across every handler invocation whose clock readings are
monotone (`checkTime ≤ afterTime`), the stored next-wakeup never decreases;
moreover it changes only in the rendering-tick branch — which requires the
current time to have reached the stored next-wakeup and writes a value at or
after the post-work clock reading — while every other branch leaves it
untouched. -/
theorem C10_next_wakeup_monotone (target : Nat) (s : LoopState) (i : EventInput)
    (htime : i.timing.checkTime ≤ i.timing.afterTime) :
    s.next_iteration ≤ (stepLoop target s i).1.next_iteration
    ∧ ((stepLoop target s i).1.next_iteration ≠ s.next_iteration →
        i.event = LoopEvent.newEvents
        ∧ s.next_iteration ≤ i.timing.checkTime
        ∧ i.timing.afterTime ≤ (stepLoop target s i).1.next_iteration) := by
  rcases hev : i.event with _ | _ | we | _
  · simp [stepLoop, hev]
  · by_cases hearly : s.next_iteration > i.timing.checkTime
    · simp [stepLoop, hev, hearly]
    · have h2 := tickNext_eq target i.timing
      constructor
      · simp only [stepLoop, hev, if_neg hearly]
        omega
      · intro _
        refine ⟨rfl, by omega, ?_⟩
        simp only [stepLoop, hev, if_neg hearly]
        omega
  · cases we <;> simp [stepLoop, hev]
  · simp [stepLoop, hev]

/-- Witness for C10 at a concrete due wake. -/
theorem C10_next_wakeup_monotone_witness :
    0 ≤ (stepLoop 10 ⟨0, CtrlFlow.poll⟩
        ⟨LoopEvent.newEvents, ⟨5, 3, 9⟩, ⟨800, 600⟩⟩).1.next_iteration :=
  (C10_next_wakeup_monotone 10 ⟨0, CtrlFlow.poll⟩
    ⟨LoopEvent.newEvents, ⟨5, 3, 9⟩, ⟨800, 600⟩⟩ (by decide)).1

end ScreenSplitter
